import Mathlib

/-!
Verification of the firefighter-monitoring-device state-resolution and
telemetry pipeline.

The embedding follows the latching firmware variant (the second sketch in
src/firmware/firefighter_monitor.ino, the one with the two-press SOS latch
and the 200 ms debounce), the consumer dashboard logic in
src/web-dashboard/src/app/page.tsx, and the consumer ingress POST handler.
Machine `unsigned long` millisecond clocks are modelled as `Nat` (the claims
only concern monotone, non-wrapping runs, where C unsigned subtraction
agrees with truncated `Nat` subtraction), and `float` sensor readings as
`Rat`.
-/

set_option autoImplicit false

namespace SFMS

/-- Device states. `NORMAL`, `WARNING`, `EMERGENCY`, `SOS` and `STARTUP` are
the strings the firmware stores in `deviceState`; `EMERGENCY_HIGH_TEMP`
stands for the string "EMERGENCY (HIGH TEMP)" produced by the temperature
rule; `OFFLINE` is the consumer-only overlay value, never produced by the
firmware. -/
inductive DeviceState where
  | NORMAL
  | WARNING
  | EMERGENCY
  | EMERGENCY_HIGH_TEMP
  | SOS
  | STARTUP
  | OFFLINE
deriving DecidableEq, Repr

open DeviceState

/-- Severity order `NORMAL < WARNING < EMERGENCY < SOS` from the spec data
model; "EMERGENCY (HIGH TEMP)" carries `EMERGENCY` severity, which is how the
consumer recovers it (the `includes` chain in page.tsx maps it to
`EMERGENCY`). `STARTUP` and the consumer-only `OFFLINE` sit at baseline. -/
def severity : DeviceState → Nat
  | NORMAL => 0
  | WARNING => 1
  | EMERGENCY => 2
  | EMERGENCY_HIGH_TEMP => 2
  | SOS => 3
  | STARTUP => 0
  | OFFLINE => 0

/-- Persistent firmware globals of the latching variant: movement tracking
(`notMoving`, `noMoveStartTime`), the SOS latch (`sosActive`,
`sosDeactivateCount`), and the button debounce state (`lastButtonState`,
where `true` is HIGH, and `lastDebounceTime`). -/
structure FwState where
  notMoving : Bool
  noMoveStartTime : Nat
  sosActive : Bool
  sosDeactivateCount : Nat
  lastButtonState : Bool
  lastDebounceTime : Nat
deriving DecidableEq, Repr

/-- Inputs consumed by one pass of `loop()`: the clock value, the computed
total acceleration magnitude (in g), the DHT temperature reading (`none`
models a NaN read), and the raw button level (`true` = HIGH). -/
structure TickInput where
  now : Nat
  totalAcc : Rat
  temperature : Option Rat
  buttonLevel : Bool
deriving DecidableEq, Repr

/-- Result of one loop pass: the updated globals and the resolved
`deviceState`. -/
structure TickResult where
  state : FwState
  deviceState : DeviceState
deriving DecidableEq, Repr

/-- Movement tracking update: `movement = |totalAcc - 1.0|`; below the
0.03 g threshold the no-movement timer starts (or keeps running), otherwise
`notMoving` is cleared. Returns the new `(notMoving, noMoveStartTime)`. -/
def movementUpdate (s : FwState) (i : TickInput) : Bool × Nat :=
  if |i.totalAcc - 1| < 3 / 100 then
    if s.notMoving then (true, s.noMoveStartTime) else (true, i.now)
  else
    (false, s.noMoveStartTime)

/-- The `noMoveDuration` (in whole seconds, unsigned integer division by
1000) computed by the loop after the movement update; 0 when moving. -/
def noMoveDurationAfter (s : FwState) (i : TickInput) : Nat :=
  let mu := movementUpdate s i
  if mu.1 then (i.now - mu.2) / 1000 else 0

/-- Candidate state from the movement rules: moving keeps the NORMAL
baseline, stillness of 5 to 14 seconds gives WARNING, 15 seconds or more
gives EMERGENCY. -/
def movementState (dur : Nat) (notMoving : Bool) : DeviceState :=
  if !notMoving then NORMAL
  else if 5 ≤ dur ∧ dur < 15 then WARNING
  else if 15 ≤ dur then EMERGENCY
  else NORMAL

/-- Temperature rule: a NaN reading is replaced by -999; a reading above
50 overwrites the state with "EMERGENCY (HIGH TEMP)". There is no warning
temperature tier in this firmware variant. -/
def tempState (st : DeviceState) (temp : Option Rat) : DeviceState :=
  let t := temp.getD (-999)
  if t > 50 then EMERGENCY_HIGH_TEMP else st

/-- Debounced rising-edge detection (`buttonJustPressed`): the raw level is
HIGH, the previous sample was LOW, and at least 200 ms have elapsed since
the previously accepted edge. -/
def acceptedEdge (s : FwState) (i : TickInput) : Bool :=
  i.buttonLevel && !s.lastButtonState && decide (200 ≤ i.now - s.lastDebounceTime)

/-- SOS latch transition on an accepted edge: inactive latches ON with the
cancel counter reset; active counts cancel presses and releases the latch
(resetting the counter) when the counter reaches 2. -/
def sosLatchStep : Bool × Nat → Bool × Nat
  | (false, _) => (true, 0)
  | (true, c) => if c + 1 ≥ 2 then (false, 0) else (true, c + 1)

/-- One pass of the latching firmware `loop()`: movement logic, temperature
logic, debounced SOS latch update, and the final `if (sosActive)
deviceState = "SOS"` override. -/
def tick (s : FwState) (i : TickInput) : TickResult :=
  let mu := movementUpdate s i
  let dur := noMoveDurationAfter s i
  let st2 := tempState (movementState dur mu.1) i.temperature
  let edge := acceptedEdge s i
  let latch :=
    if edge then sosLatchStep (s.sosActive, s.sosDeactivateCount)
    else (s.sosActive, s.sosDeactivateCount)
  { state :=
      { notMoving := mu.1
        noMoveStartTime := mu.2
        sosActive := latch.1
        sosDeactivateCount := latch.2
        lastButtonState := i.buttonLevel
        lastDebounceTime := if edge then i.now else s.lastDebounceTime }
    deviceState := if latch.1 then SOS else st2 }

/-- Initial values of the firmware globals (`sosActive = false`,
`sosDeactivateCount = 0`, `lastButtonState = HIGH`,
`lastDebounceTime = 0`). -/
def initFw : FwState :=
  { notMoving := false
    noMoveStartTime := 0
    sosActive := false
    sosDeactivateCount := 0
    lastButtonState := true
    lastDebounceTime := 0 }

/-- Run the loop over a list of tick inputs, threading the globals. -/
def runFw (s : FwState) (is : List TickInput) : FwState :=
  is.foldl (fun a i => (tick a i).state) s

/-- Temperature rule of the non-latching firmware variant (the first sketch
in firefighter_monitor.ino, lines 121-126): above 50 escalates to EMERGENCY
unless in SOS; between 40 and 50 escalates to WARNING unless in SOS or
EMERGENCY. -/
def tempLogic1 (st : DeviceState) (t : Rat) : DeviceState :=
  if t > 50 then (if st ≠ SOS then EMERGENCY else st)
  else if t > 40 then (if st ≠ SOS ∧ st ≠ EMERGENCY then WARNING else st)
  else st

/-- Occurrence test standing for the JavaScript `String.prototype.includes`
used by the dashboard: `splitOn` yields more than one piece exactly when the
pattern occurs in the string. -/
def strIncludes (s pat : String) : Bool :=
  (s.splitOn pat).length > 1

/-- Status mapping performed by the dashboard when an envelope arrives
(page.tsx lines 214-219): an `includes` chain checked in the order
EMERGENCY, WARNING, SOS, NORMAL, with `mappedStatus` initialized to
NORMAL. -/
def mapStatus (s : String) : DeviceState :=
  if strIncludes s "EMERGENCY" then EMERGENCY
  else if strIncludes s "WARNING" then WARNING
  else if strIncludes s "SOS" then SOS
  else if strIncludes s "NORMAL" then NORMAL
  else NORMAL

/-- Consumer-side view of one device: the time of the last received
envelope (`lastHeartbeat`, milliseconds, `none` before any arrival) and the
last mapped reported state (`none` before any arrival, standing for a null
`deviceData`). -/
structure ConsumerView where
  lastHeartbeat : Option Nat
  lastStatus : Option DeviceState
deriving DecidableEq, Repr

/-- Effect of one accepted envelope on the consumer view: the RTDB
`onValue` handler stores the mapped status and sets the heartbeat to the
arrival time (`setDeviceData` / `setLastHeartbeat(new Date())`). -/
def receiveEnvelope (_st : ConsumerView) (statusStr : String) (now : Nat) :
    ConsumerView :=
  { lastHeartbeat := some now
    lastStatus := some (mapStatus statusStr) }

/-- Liveness check (page.tsx line 270): online when a heartbeat exists and
lies strictly within 10000 ms of the current time. -/
def isOnline (st : ConsumerView) (now : Nat) : Bool :=
  match st.lastHeartbeat with
  | none => false
  | some hb => now - hb < 10000

/-- Displayed state on the live (non-mock) path (page.tsx lines 271-273):
`OFFLINE` when not online, otherwise the last reported state with a
`NORMAL` fallback. -/
def displayStatus (st : ConsumerView) (now : Nat) : DeviceState :=
  if isOnline st now then (st.lastStatus.getD NORMAL) else OFFLINE

/-- One push into a rolling analytics window (page.tsx lines 130-131):
`[...prev.slice(-59), item]`, keeping the last 59 entries and appending the
new one, for a capacity of 60. -/
def pushWindow {α : Type} (l : List α) (x : α) : List α :=
  l.drop (l.length - 59) ++ [x]

/-- Feed a whole arrival-ordered sequence of samples through the rolling
window. -/
def pushAll {α : Type} (l : List α) (xs : List α) : List α :=
  xs.foldl pushWindow l

/-- Ingress request as seen by the consumer POST handler: whether
`req.json()` parses, and the `device_id` field (`none` when absent). The
remaining envelope fields do not influence the control flow. -/
structure IngressRequest where
  validJson : Bool
  device_id : Option String
deriving DecidableEq, Repr

/-- JavaScript truthiness of the `device_id` field: absent (or null) and
the empty string are falsy. -/
def truthyId : Option String → Bool
  | none => false
  | some s => s != ""

/-- Consumer ingress POST handler (src/unnamed/part_002). Checks, in the
code's order: backing store initialized (else 503), body parse (a throw
lands in the catch, 500), `device_id` truthy (else 400), then the
historical-readings write and the latest-state write (a throw from either
lands in the catch, 500), else 200 with `success: true`. `addOk` and
`setOk` model whether the two store writes succeed. The result is (HTTP
status, success-acknowledgment body, number of completed writes). -/
def handlePost (adminDbInit : Bool) (r : IngressRequest)
    (addOk setOk : Bool) : Nat × Bool × Nat :=
  if !adminDbInit then (503, false, 0)
  else if !r.validJson then (500, false, 0)
  else if !truthyId r.device_id then (400, false, 0)
  else if !addOk then (500, false, 0)
  else if !setOk then (500, false, 1)
  else (200, true, 2)

-- Concrete states and inputs used by counterexamples and witnesses.

/-- A firmware state with the latch idle and the button already HIGH (so no
edge fires on a HIGH sample). -/
def exIdleState : FwState :=
  { notMoving := false
    noMoveStartTime := 0
    sosActive := false
    sosDeactivateCount := 0
    lastButtonState := true
    lastDebounceTime := 0 }

/-- Tick input with temperature exactly 50 °C and the wearer moving
(total acceleration 2 g). -/
def exTemp50Input : TickInput :=
  { now := 0, totalAcc := 2, temperature := some 50, buttonLevel := true }

/-- Tick input with temperature 45 °C (inside the claimed 40-50 warning
band) and the wearer moving. -/
def exTemp45Input : TickInput :=
  { now := 0, totalAcc := 2, temperature := some 45, buttonLevel := true }

/-- Tick input with temperature 51 °C and the wearer moving. -/
def exTemp51Input : TickInput :=
  { now := 0, totalAcc := 2, temperature := some 51, buttonLevel := true }

/-- A firmware state that has been still since time 0 (timer running). -/
def exStillState : FwState :=
  { notMoving := true
    noMoveStartTime := 0
    sosActive := false
    sosDeactivateCount := 0
    lastButtonState := true
    lastDebounceTime := 0 }

/-- Tick input at 7 s with the wearer motionless (total acceleration 1 g)
and a mild temperature. -/
def exStill7sInput : TickInput :=
  { now := 7000, totalAcc := 1, temperature := some 25, buttonLevel := true }

/-- A firmware state with the SOS latch active, no pending cancel presses,
and the button currently LOW so that a HIGH sample forms a rising edge. -/
def exActiveState : FwState :=
  { notMoving := false
    noMoveStartTime := 0
    sosActive := true
    sosDeactivateCount := 0
    lastButtonState := false
    lastDebounceTime := 0 }

/-- Rising button edge at t = 200 ms, outside the debounce window of the
initial debounce time 0. -/
def exEdge200 : TickInput :=
  { now := 200, totalAcc := 2, temperature := some 25, buttonLevel := true }

/-- Button released (LOW) at t = 300 ms. -/
def exLow300 : TickInput :=
  { now := 300, totalAcc := 2, temperature := some 25, buttonLevel := false }

/-- Rising button edge at t = 350 ms: only 150 ms after the edge at
t = 200 ms, inside the debounce window. -/
def exEdge350 : TickInput :=
  { now := 350, totalAcc := 2, temperature := some 25, buttonLevel := true }

/-- Rising button edge at t = 500 ms: 300 ms after the accepted edge at
t = 200 ms, outside the debounce window. -/
def exEdge500 : TickInput :=
  { now := 500, totalAcc := 2, temperature := some 25, buttonLevel := true }

/-- Consumer view that last heard from the device at t = 0 with a reported
SOS. -/
def exConsumerSos : ConsumerView :=
  { lastHeartbeat := some 0, lastStatus := some SOS }

/-- Consumer view before any envelope has arrived. -/
def exConsumerFresh : ConsumerView :=
  { lastHeartbeat := none, lastStatus := none }

/-- Parsable ingress body with no `device_id` field. -/
def exNoIdRequest : IngressRequest :=
  { validJson := true, device_id := none }

/-- Well-formed ingress body carrying a device identifier. -/
def exGoodRequest : IngressRequest :=
  { validJson := true, device_id := some "FF_001" }

/-- Ingress request whose body fails to parse as JSON. -/
def exBadJsonRequest : IngressRequest :=
  { validJson := false, device_id := some "FF_001" }

-- Characterization lemmas for `tick`.

theorem tick_deviceState_eq (s : FwState) (i : TickInput) :
    (tick s i).deviceState =
      if (tick s i).state.sosActive then SOS
      else tempState (movementState (noMoveDurationAfter s i) (movementUpdate s i).1)
        i.temperature := rfl

theorem tick_latch_eq (s : FwState) (i : TickInput) :
    ((tick s i).state.sosActive, (tick s i).state.sosDeactivateCount) =
      if acceptedEdge s i then sosLatchStep (s.sosActive, s.sosDeactivateCount)
      else (s.sosActive, s.sosDeactivateCount) := rfl

theorem tick_lastDebounceTime_eq (s : FwState) (i : TickInput) :
    (tick s i).state.lastDebounceTime =
      if acceptedEdge s i then i.now else s.lastDebounceTime := rfl

theorem movementState_ne_sos (dur : Nat) (nm : Bool) :
    movementState dur nm ≠ SOS := by
  unfold movementState
  split
  · decide
  · split
    · decide
    · split
      · decide
      · decide

theorem tempState_ne_sos (st : DeviceState) (temp : Option Rat)
    (h : st ≠ SOS) : tempState st temp ≠ SOS := by
  simp only [tempState]
  split
  · decide
  · exact h

/-- C1: for every tick and every combination of temperature and motion
inputs, the resolved state is `SOS` exactly when the SOS latch is active at
that tick (after the tick's debounced button processing); no temperature or
motion input can suppress or downgrade it. -/
theorem sos_iff_latch_active (s : FwState) (i : TickInput) :
    (tick s i).deviceState = SOS ↔ (tick s i).state.sosActive = true := by
  rw [tick_deviceState_eq]
  cases h : (tick s i).state.sosActive with
  | true => simp
  | false =>
    simp only [Bool.false_eq_true, if_false, iff_false]
    exact fun hc =>
      tempState_ne_sos _ _ (movementState_ne_sos _ _) hc

/-- C2 counterexample: at a temperature of exactly 50 °C (which satisfies
"greater than or equal to the critical threshold") with the wearer moving
and the SOS latch inactive, the resolved severity is below EMERGENCY,
because the firmware tests `temperature > 50` strictly. -/
theorem temp_at_critical_below_emergency_cex :
    (50 : Rat) ≥ 50 ∧
    (tick exIdleState exTemp50Input).state.sosActive = false ∧
    exTemp50Input.temperature = some 50 ∧
    severity (tick exIdleState exTemp50Input).deviceState <
      severity EMERGENCY := by
  refine ⟨le_refl _, by decide, rfl, ?_⟩
  norm_num [tick, movementUpdate, noMoveDurationAfter, movementState,
    tempState, acceptedEdge, sosLatchStep, severity, exIdleState,
    exTemp50Input]

/-- C2 amended: for every evaluation tick with the SOS latch inactive, if
the temperature reading is strictly greater than the critical threshold
(50 °C), the resolved severity is at least EMERGENCY. -/
theorem temp_above_critical_emergency (s : FwState) (i : TickInput) (t : Rat)
    (hT : i.temperature = some t) (h50 : 50 < t)
    (hSos : (tick s i).state.sosActive = false) :
    severity EMERGENCY ≤ severity (tick s i).deviceState := by
  rw [tick_deviceState_eq, hSos]
  simp only [Bool.false_eq_true, if_false]
  unfold tempState
  rw [hT]
  simp only [Option.getD_some]
  rw [if_pos h50]
  exact le_refl _

/-- Witness for the amended C2 at 51 °C. -/
theorem temp_above_critical_emergency_witness :
    exTemp51Input.temperature = some 51 ∧ (50 : Rat) < 51 ∧
    (tick exIdleState exTemp51Input).state.sosActive = false ∧
    severity EMERGENCY ≤ severity (tick exIdleState exTemp51Input).deviceState :=
  ⟨rfl, by decide, by decide,
    temp_above_critical_emergency exIdleState exTemp51Input 51 rfl
      (by decide) (by decide)⟩

/-- C3 counterexample: at 45 °C, strictly between the warning threshold
(40 °C) and the critical threshold (50 °C), with the wearer moving and the
SOS latch inactive, the latching firmware resolves NORMAL: its resolver has
no warning temperature tier. -/
theorem temp_warning_band_cex :
    (40 : Rat) < 45 ∧ (45 : Rat) < 50 ∧
    (tick exIdleState exTemp45Input).state.sosActive = false ∧
    exTemp45Input.temperature = some 45 ∧
    severity (tick exIdleState exTemp45Input).deviceState <
      severity WARNING := by
  refine ⟨by decide, by decide, by decide, rfl, ?_⟩
  norm_num [tick, movementUpdate, noMoveDurationAfter, movementState,
    tempState, acceptedEdge, sosLatchStep, severity, exIdleState,
    exTemp45Input]

/-- C3 amended: in the latching firmware variant, with the SOS latch
inactive, any temperature reading at or below the critical threshold
(including the whole 40-50 °C band) leaves the resolved state exactly as
the movement rules determined it; the warning temperature tier exists only
in the non-latching variant, whose temperature rule sets WARNING for
temperatures in (40, 50] when the state is neither SOS nor EMERGENCY. -/
theorem temp_warning_band_amended :
    (∀ (s : FwState) (i : TickInput),
      (tick s i).state.sosActive = false →
      (∀ t : Rat, i.temperature = some t → t ≤ 50) →
      (tick s i).deviceState =
        movementState (noMoveDurationAfter s i) (movementUpdate s i).1) ∧
    (∀ (st : DeviceState) (t : Rat),
      st ≠ SOS → st ≠ EMERGENCY → 40 < t → t ≤ 50 →
      tempLogic1 st t = WARNING) := by
  constructor
  · intro s i hSos hT
    rw [tick_deviceState_eq, hSos]
    simp only [Bool.false_eq_true, if_false]
    unfold tempState
    cases hTemp : i.temperature with
    | none =>
      simp only [Option.getD_none]
      rw [if_neg (by norm_num)]
    | some t =>
      have ht := hT t hTemp
      simp only [Option.getD_some]
      rw [if_neg (not_lt.mpr ht)]
  · intro st t h1 h2 h3 h4
    unfold tempLogic1
    rw [if_neg (not_lt.mpr h4), if_pos h3, if_pos ⟨h1, h2⟩]

/-- Witness for the amended C3: the latching tick at 45 °C while moving
keeps the movement-derived state, and the non-latching temperature rule
turns NORMAL into WARNING at 45 °C. -/
theorem temp_warning_band_amended_witness :
    (tick exIdleState exTemp45Input).deviceState =
      movementState (noMoveDurationAfter exIdleState exTemp45Input)
        (movementUpdate exIdleState exTemp45Input).1 ∧
    tempLogic1 NORMAL 45 = WARNING :=
  ⟨temp_warning_band_amended.1 exIdleState exTemp45Input (by decide)
      (by
        intro t ht
        have ht2 : some (45 : Rat) = some t := ht
        injection ht2 with h
        rw [← h]
        decide),
    temp_warning_band_amended.2 NORMAL 45 (by decide) (by decide)
      (by decide) (by decide)⟩

/-- C4: for every tick with the SOS latch inactive, the acceleration
deviation below the 0.03 g movement threshold, and an elapsed stillness
duration of at least 5 s and under 15 s, the resolved severity is at least
WARNING. -/
theorem stillness_warning (s : FwState) (i : TickInput)
    (hSos : (tick s i).state.sosActive = false)
    (hDev : |i.totalAcc - 1| < 3 / 100)
    (h5 : 5 ≤ noMoveDurationAfter s i)
    (h15 : noMoveDurationAfter s i < 15) :
    severity WARNING ≤ severity (tick s i).deviceState := by
  rw [tick_deviceState_eq, hSos]
  simp only [Bool.false_eq_true, if_false]
  have hmu : (movementUpdate s i).1 = true := by
    unfold movementUpdate
    rw [if_pos hDev]
    split <;> rfl
  rw [hmu]
  have hms : movementState (noMoveDurationAfter s i) true = WARNING := by
    unfold movementState
    rw [if_neg (by decide), if_pos ⟨h5, h15⟩]
  rw [hms]
  simp only [tempState]
  split
  · decide
  · decide

/-- Witness for C4: still since t = 0, evaluated at t = 7 s. -/
theorem stillness_warning_witness :
    (tick exStillState exStill7sInput).state.sosActive = false ∧
    |exStill7sInput.totalAcc - 1| < 3 / 100 ∧
    5 ≤ noMoveDurationAfter exStillState exStill7sInput ∧
    noMoveDurationAfter exStillState exStill7sInput < 15 ∧
    severity WARNING ≤
      severity (tick exStillState exStill7sInput).deviceState :=
  ⟨by decide, by norm_num [exStill7sInput],
    by norm_num [noMoveDurationAfter, movementUpdate, exStillState, exStill7sInput],
    by norm_num [noMoveDurationAfter, movementUpdate, exStillState, exStill7sInput],
    stillness_warning exStillState exStill7sInput (by decide)
      (by norm_num [exStill7sInput])
      (by norm_num [noMoveDurationAfter, movementUpdate, exStillState, exStill7sInput])
      (by norm_num [noMoveDurationAfter, movementUpdate, exStillState, exStill7sInput])⟩

/-- C5: at any tick whose debounced button edge is accepted, an ACTIVE
latch with cancel counter 0 stays ACTIVE with counter 1 (one press does not
deactivate); at any tick whose edge is accepted, an ACTIVE latch with
counter 1 returns to IDLE with the counter reset to 0 — so exactly two
accepted edges deactivate. -/
theorem latch_two_press_deactivation :
    (∀ (s : FwState) (i : TickInput),
      acceptedEdge s i = true → s.sosActive = true →
      s.sosDeactivateCount = 0 →
      (tick s i).state.sosActive = true ∧
      (tick s i).state.sosDeactivateCount = 1) ∧
    (∀ (s : FwState) (i : TickInput),
      acceptedEdge s i = true → s.sosActive = true →
      s.sosDeactivateCount = 1 →
      (tick s i).state.sosActive = false ∧
      (tick s i).state.sosDeactivateCount = 0) := by
  constructor
  · intro s i hE hA hC
    have h := tick_latch_eq s i
    rw [hE, hA, hC] at h
    simp only [if_true, sosLatchStep] at h
    norm_num at h
    exact h
  · intro s i hE hA hC
    have h := tick_latch_eq s i
    rw [hE, hA, hC] at h
    simp only [if_true, sosLatchStep] at h
    norm_num at h
    exact h

/-- Witness for C5: an accepted edge at t = 200 ms on an ACTIVE latch with
counter 0 leaves it ACTIVE with counter 1; after a release and a second
accepted edge at t = 500 ms the latch is IDLE with counter 0. -/
theorem latch_two_press_deactivation_witness :
    ((tick exActiveState exEdge200).state.sosActive = true ∧
     (tick exActiveState exEdge200).state.sosDeactivateCount = 1) ∧
    ((tick (tick (tick exActiveState exEdge200).state exLow300).state
        exEdge500).state.sosActive = false ∧
     (tick (tick (tick exActiveState exEdge200).state exLow300).state
        exEdge500).state.sosDeactivateCount = 0) :=
  ⟨latch_two_press_deactivation.1 exActiveState exEdge200 (by decide)
      (by decide) (by decide),
    latch_two_press_deactivation.2 _ exEdge500 (by decide) (by decide)
      (by decide)⟩

/-- C6: a rejected (in-window) edge changes neither the latch nor the
debounce clock — it is ignored, not queued; and of two rising edges less
than 200 ms apart (with a release in between), at most one is accepted. -/
theorem debounce_at_most_one :
    (∀ (s : FwState) (i : TickInput), acceptedEdge s i = false →
      (tick s i).state.sosActive = s.sosActive ∧
      (tick s i).state.sosDeactivateCount = s.sosDeactivateCount ∧
      (tick s i).state.lastDebounceTime = s.lastDebounceTime) ∧
    (∀ (s : FwState) (i1 i2 i3 : TickInput),
      i2.buttonLevel = false →
      i1.now ≤ i3.now → i3.now < i1.now + 200 →
      ¬(acceptedEdge s i1 = true ∧
        acceptedEdge (tick (tick s i1).state i2).state i3 = true)) := by
  constructor
  · intro s i hE
    have h := tick_latch_eq s i
    have hd := tick_lastDebounceTime_eq s i
    rw [hE] at h hd
    simp only [Bool.false_eq_true, if_false] at h hd
    exact ⟨congrArg Prod.fst h, congrArg Prod.snd h, hd⟩
  · rintro s i1 i2 i3 hLow hMono hWin ⟨hA1, hA3⟩
    have hd1 : (tick s i1).state.lastDebounceTime = i1.now := by
      rw [tick_lastDebounceTime_eq, hA1, if_pos rfl]
    have hE2 : acceptedEdge (tick s i1).state i2 = false := by
      unfold acceptedEdge
      rw [hLow]
      simp
    have hd2 : (tick (tick s i1).state i2).state.lastDebounceTime = i1.now := by
      rw [tick_lastDebounceTime_eq, hE2]
      simp only [Bool.false_eq_true, if_false]
      exact hd1
    unfold acceptedEdge at hA3
    rw [hd2] at hA3
    simp only [Bool.and_eq_true, decide_eq_true_eq] at hA3
    omega

/-- Witness for C6: a tick whose HIGH sample follows a HIGH sample is
rejected and leaves the latch and debounce clock untouched; and with an
accepted edge at t = 200 ms, a release at t = 300 ms, and a second edge at
t = 350 ms (150 ms later), the two edges are not both accepted. -/
theorem debounce_at_most_one_witness :
    ((tick exIdleState exEdge200).state.sosActive = exIdleState.sosActive ∧
     (tick exIdleState exEdge200).state.sosDeactivateCount =
       exIdleState.sosDeactivateCount ∧
     (tick exIdleState exEdge200).state.lastDebounceTime =
       exIdleState.lastDebounceTime) ∧
    ¬(acceptedEdge exActiveState exEdge200 = true ∧
      acceptedEdge (tick (tick exActiveState exEdge200).state exLow300).state
        exEdge350 = true) :=
  ⟨debounce_at_most_one.1 exIdleState exEdge200 (by decide),
    debounce_at_most_one.2 exActiveState exEdge200 exLow300 exEdge350
      (by decide) (by decide) (by decide)⟩

theorem mapStatus_ne_offline (s : String) : mapStatus s ≠ OFFLINE := by
  unfold mapStatus
  split
  · decide
  · split
    · decide
    · split
      · decide
      · split
        · decide
        · decide

/-- C7: on the consumer, a device whose last envelope is at least 10 s old
(or that never sent one) is displayed OFFLINE regardless of its last
reported state; and the tick after an envelope is received, the display
shows the envelope's mapped reported state — the OFFLINE overlay is
cleared — whatever that state's severity. -/
theorem offline_overlay_and_recovery :
    (∀ (st : ConsumerView) (now hb : Nat), st.lastHeartbeat = some hb →
      hb + 10000 ≤ now → displayStatus st now = OFFLINE) ∧
    (∀ (st : ConsumerView) (now : Nat), st.lastHeartbeat = none →
      displayStatus st now = OFFLINE) ∧
    (∀ (st : ConsumerView) (statusStr : String) (now : Nat),
      displayStatus (receiveEnvelope st statusStr now) now =
        mapStatus statusStr ∧
      displayStatus (receiveEnvelope st statusStr now) now ≠ OFFLINE) := by
  refine ⟨?_, ?_, ?_⟩
  · intro st now hb hHb hOld
    unfold displayStatus isOnline
    rw [hHb]
    have : ¬(now - hb < 10000) := by omega
    simp [this]
  · intro st now hNone
    unfold displayStatus isOnline
    rw [hNone]
    simp
  · intro st statusStr now
    constructor
    · unfold displayStatus isOnline receiveEnvelope
      simp
    · unfold displayStatus isOnline receiveEnvelope
      simp only [Nat.sub_self]
      simp
      exact mapStatus_ne_offline statusStr

/-- Witness for C7: a view that last heard a reported SOS at t = 0 shows
OFFLINE at t = 10000 ms; a view that never heard anything shows OFFLINE;
and receiving an "EMERGENCY (HIGH TEMP)" envelope at t = 10000 ms makes the
display show EMERGENCY immediately. -/
theorem offline_overlay_and_recovery_witness :
    displayStatus exConsumerSos 10000 = OFFLINE ∧
    displayStatus exConsumerFresh 5 = OFFLINE ∧
    (displayStatus
        (receiveEnvelope exConsumerSos "EMERGENCY (HIGH TEMP)" 10000) 10000 =
      mapStatus "EMERGENCY (HIGH TEMP)" ∧
     displayStatus
        (receiveEnvelope exConsumerSos "EMERGENCY (HIGH TEMP)" 10000) 10000 ≠
      OFFLINE) :=
  ⟨offline_overlay_and_recovery.1 exConsumerSos 10000 0 rfl (by omega),
    offline_overlay_and_recovery.2.1 exConsumerFresh 5 rfl,
    offline_overlay_and_recovery.2.2 exConsumerSos "EMERGENCY (HIGH TEMP)"
      10000⟩

theorem pushWindow_eq {α : Type} (l : List α) (x : α) :
    pushWindow l x = (l ++ [x]).drop ((l ++ [x]).length - 60) := by
  unfold pushWindow
  rw [List.drop_append_eq_append_drop]
  have h0 : (l ++ [x]).length - 60 - l.length = 0 := by
    simp [List.length_append]
  rw [h0, List.drop_zero]
  have h1 : (l ++ [x]).length - 60 = l.length - 59 := by
    simp [List.length_append]
  rw [h1]

theorem pushAll_nil_eq {α : Type} (xs : List α) :
    pushAll ([] : List α) xs = xs.drop (xs.length - 60) := by
  induction xs using List.reverseRecOn with
  | nil => rfl
  | append_singleton ys y ih =>
    have hstep : pushAll ([] : List α) (ys ++ [y]) =
        pushWindow (pushAll ([] : List α) ys) y := by
      unfold pushAll
      rw [List.foldl_append]
      rfl
    rw [hstep, ih]
    unfold pushWindow
    rw [List.drop_drop, List.drop_append_eq_append_drop]
    have hlen : (ys ++ [y]).length = ys.length + 1 := by simp
    rw [hlen]
    have h2 : ys.length + 1 - 60 - ys.length = 0 := by omega
    rw [h2, List.drop_zero]
    have hidx : (ys.length - 60) +
        ((ys.drop (ys.length - 60)).length - 59) = ys.length + 1 - 60 := by
      rw [List.length_drop]
      omega
    rw [hidx]

/-- C8: feeding any arrival-ordered sequence of more than 60 samples
through a rolling analytics window (temperature samples or movement
booleans both use `pushWindow`) leaves a window of length exactly 60 whose
contents are exactly the last 60 samples in arrival order. -/
theorem rolling_window_bound {α : Type} (xs : List α)
    (h : 60 < xs.length) :
    (pushAll ([] : List α) xs).length = 60 ∧
    pushAll ([] : List α) xs = xs.drop (xs.length - 60) := by
  refine ⟨?_, pushAll_nil_eq xs⟩
  rw [pushAll_nil_eq, List.length_drop]
  omega

/-- Witness for C8: pushing the 61 numbers 0..60 leaves the window holding
exactly 1..60. -/
theorem rolling_window_bound_witness :
    60 < (List.range 61).length ∧
    (pushAll ([] : List Nat) (List.range 61)).length = 60 ∧
    pushAll ([] : List Nat) (List.range 61) = (List.range 61).drop 1 :=
  ⟨by decide, (rolling_window_bound (List.range 61) (by decide)).1,
    (rolling_window_bound (List.range 61) (by decide)).2⟩

/-- C9 counterexample: when the backing store is uninitialized AND the body
lacks `device_id`, the handler returns 503, not 400 — the store check runs
first, so "missing device_id returns 400" does not hold unconditionally. -/
theorem ingress_missing_id_not_always_400_cex :
    truthyId exNoIdRequest.device_id = false ∧
    handlePost false exNoIdRequest true true = (503, false, 0) ∧
    (handlePost false exNoIdRequest true true).1 ≠ 400 := by
  decide

/-- C9 amended: the store-availability check precedes body validation.
With the store initialized and a parsable body, a missing (or empty)
`device_id` yields 400 with no write performed; whenever the store is not
initialized the handler yields 503 (and no write); an unparsable body or a
failing store write yields 500; otherwise the handler yields 200 with the
success acknowledgment after both writes. -/
theorem ingress_handler_amended :
    (∀ (r : IngressRequest) (addOk setOk : Bool),
      r.validJson = true → truthyId r.device_id = false →
      handlePost true r addOk setOk = (400, false, 0)) ∧
    (∀ (r : IngressRequest) (addOk setOk : Bool),
      handlePost false r addOk setOk = (503, false, 0)) ∧
    (∀ (r : IngressRequest) (addOk setOk : Bool),
      r.validJson = false → handlePost true r addOk setOk = (500, false, 0)) ∧
    (∀ (r : IngressRequest) (addOk setOk : Bool),
      r.validJson = true → truthyId r.device_id = true →
      (addOk = false ∨ setOk = false) →
      (handlePost true r addOk setOk).1 = 500) ∧
    (∀ (r : IngressRequest),
      r.validJson = true → truthyId r.device_id = true →
      handlePost true r true true = (200, true, 2)) := by
  refine ⟨?_, ?_, ?_, ?_, ?_⟩
  · intro r addOk setOk hJ hId
    simp [handlePost, hJ, hId]
  · intro r addOk setOk
    simp [handlePost]
  · intro r addOk setOk hJ
    simp [handlePost, hJ]
  · intro r addOk setOk hJ hId hFail
    rcases hFail with hA | hS
    · simp [handlePost, hJ, hId, hA]
    · cases hA : addOk <;> simp [handlePost, hJ, hId, hA, hS]
  · intro r hJ hId
    simp [handlePost, hJ, hId]

/-- Witness for the amended C9 at concrete requests: missing id with the
store up gives 400; store down gives 503; bad JSON gives 500; a failing
first write gives 500; the happy path gives 200 with both writes done. -/
theorem ingress_handler_amended_witness :
    handlePost true exNoIdRequest true true = (400, false, 0) ∧
    handlePost false exGoodRequest true true = (503, false, 0) ∧
    handlePost true exBadJsonRequest true true = (500, false, 0) ∧
    (handlePost true exGoodRequest false true).1 = 500 ∧
    handlePost true exGoodRequest true true = (200, true, 2) :=
  ⟨ingress_handler_amended.1 exNoIdRequest true true (by decide) (by decide),
    ingress_handler_amended.2.1 exGoodRequest true true,
    ingress_handler_amended.2.2.1 exBadJsonRequest true true (by decide),
    ingress_handler_amended.2.2.2.1 exGoodRequest false true (by decide)
      (by decide) (Or.inl rfl),
    ingress_handler_amended.2.2.2.2 exGoodRequest (by decide) (by decide)⟩

theorem sosLatchStep_inv (p : Bool × Nat) :
    (sosLatchStep p).2 ≤ (if (sosLatchStep p).1 then 1 else 0) := by
  rcases p with ⟨a, c⟩
  cases a with
  | false => simp [sosLatchStep]
  | true =>
    simp only [sosLatchStep]
    split
    · simp
    · next hlt =>
      simp only []
      simp at hlt ⊢
      omega

theorem tick_inv (s : FwState) (i : TickInput)
    (h : s.sosDeactivateCount ≤ (if s.sosActive then 1 else 0)) :
    (tick s i).state.sosDeactivateCount ≤
      (if (tick s i).state.sosActive then 1 else 0) := by
  have hl := tick_latch_eq s i
  cases hE : acceptedEdge s i with
  | false =>
    rw [hE] at hl
    simp only [Bool.false_eq_true, if_false] at hl
    have h1 := congrArg Prod.fst hl
    have h2 := congrArg Prod.snd hl
    simp only [Prod.fst, Prod.snd] at h1 h2
    rw [h1, h2]
    exact h
  | true =>
    rw [hE] at hl
    simp only [if_true] at hl
    have h1 := congrArg Prod.fst hl
    have h2 := congrArg Prod.snd hl
    simp only [Prod.fst, Prod.snd] at h1 h2
    rw [h1, h2]
    exact sosLatchStep_inv (s.sosActive, s.sosDeactivateCount)

theorem runFw_inv :
    ∀ (is : List TickInput) (s : FwState),
      s.sosDeactivateCount ≤ (if s.sosActive then 1 else 0) →
      (runFw s is).sosDeactivateCount ≤
        (if (runFw s is).sosActive then 1 else 0) := by
  intro is
  induction is with
  | nil => intro s hs; exact hs
  | cons i rest ih =>
    intro s hs
    exact ih ((tick s i).state) (tick_inv s i hs)

/-- C10: in every firmware state reachable from the initial state by any
sequence of loop ticks (hence by any sequence of accepted button edges),
the deactivation counter is 0 whenever the latch is inactive and at most 1
whenever it is active — a stale counter can never let a single later press
deactivate SOS. -/
theorem latch_counter_invariant (is : List TickInput) :
    (runFw initFw is).sosDeactivateCount ≤
      (if (runFw initFw is).sosActive then 1 else 0) :=
  runFw_inv is initFw (by decide)

end SFMS
